import Mathlib

/-!
# pspawn: process handle lifecycle

A shallow embedding of `include/pspawn/pspawn.hpp`.

* An OS reference (`HANDLE`) is a natural number, `nullptr` is `0`.
* A `DWORD`/`UINT` is a natural number below `2 ^ 32`; conversions from wider or
  signed integers reduce modulo `2 ^ 32`.
* The operating system is an oracle (`Os`): the value each call returns is a
  function of the calls issued before it and of the call's arguments.  Every
  call the program issues is appended to a chronological trace.
* Member functions take the object (`self`) and the trace, and return their
  value together with the object and the trace afterwards.
-/

namespace pspawn

/-! ## Windows types and constants -/

/-- An OS reference; the null pointer is `0`. -/
abbrev HANDLE := Nat

/-- A 32-bit unsigned value. -/
abbrev DWORD := Nat

/-- The null reference. -/
def nullptr : HANDLE := 0

/-- Value of the Windows SDK: the waited object is signaled. -/
def WAIT_OBJECT_0 : DWORD := 0x00000000

/-- Value of the Windows SDK: the wait interval elapsed. -/
def WAIT_TIMEOUT : DWORD := 0x00000102

/-- Value of the Windows SDK: the wait call itself failed. -/
def WAIT_FAILED : DWORD := 0xFFFFFFFF

/-- Value of the Windows SDK: a wait interval that never elapses. -/
def INFINITE : DWORD := 0xFFFFFFFF

/-- Value of the Windows SDK: exit status reported for a process still running. -/
def STILL_ACTIVE : DWORD := 259

/-- Conversion of a signed integer to `DWORD`/`UINT`, as `static_cast<DWORD>` and the
implicit argument conversions do. -/
def toDWORD (x : Int) : DWORD := (x % 2 ^ 32).toNat

/-- The record `PROCESS_INFORMATION` filled by `CreateProcessA`. -/
structure PROCESS_INFORMATION where
  hProcess : HANDLE
  hThread : HANDLE
  dwProcessId : DWORD
  dwThreadId : DWORD
  deriving DecidableEq, Repr

/-! ## The operating system -/

/-- One call issued to the operating system, with the arguments the code passes.
`CreateProcessA` records the command line, the creation flags and the working directory
(`none` is a null pointer); the other arguments are constants in the source. -/
inductive OsCall where
  | CreateProcessA (command : String) (creation_flags : DWORD) (work_dir : Option String)
  | WaitForSingleObject (h : HANDLE) (milliseconds : DWORD)
  | GetExitCodeProcess (h : HANDLE)
  | TerminateProcess (h : HANDLE) (exit_code : DWORD)
  | CloseHandle (h : HANDLE)
  deriving DecidableEq, Repr

/-- The chronological list of OS calls issued so far. -/
abbrev Trace := List OsCall

/-- What the operating system answers.  Each answer may depend on every earlier call.
* `CreateProcessA` receives the record behind the out pointer and returns the `BOOL`
  together with the record afterwards.
* `WaitForSingleObject` returns the wait status.
* `GetExitCodeProcess` receives the content of the out variable and returns the `BOOL`
  together with the content afterwards.
The results of `TerminateProcess` and `CloseHandle` are never read by the code. -/
structure Os where
  CreateProcessA : Trace → String → DWORD → Option String → PROCESS_INFORMATION →
    Bool × PROCESS_INFORMATION
  WaitForSingleObject : Trace → HANDLE → DWORD → DWORD
  GetExitCodeProcess : Trace → HANDLE → DWORD → Bool × DWORD

/-! ## The library's types -/

/-- The scoped enumeration `priority`, by its underlying integer, so that values outside
the three enumerators are covered. -/
structure priority where
  val : Int
  deriving DecidableEq, Repr

/-- Enumerator `priority::low`. -/
def priority.low : priority := ⟨0⟩

/-- Enumerator `priority::normal`. -/
def priority.normal : priority := ⟨1⟩

/-- Enumerator `priority::high`. -/
def priority.high : priority := ⟨2⟩

/-- The enumeration `process_status` (spelled as in the source). -/
inductive process_status where
  | deffered
  | running
  | done
  deriving DecidableEq, Repr

/-- The class `process`: the OS record and the grace period, a count of milliseconds. -/
structure process where
  pi_ : PROCESS_INFORMATION
  terminate_timeout_ : Int
  deriving DecidableEq, Repr

/-- What a member function leaves behind: its return value, the object and the trace. -/
structure Ret (α : Type) where
  value : α
  self : process
  trace : Trace

/-! ## Member functions of `process` -/

/-- The default constructor `process()`: only `pi_.hProcess` is set, every other member
keeps the indeterminate content `uninit` of the storage. -/
def process.ctor (uninit : process) : process :=
  { uninit with pi_ := { uninit.pi_ with hProcess := nullptr } }

/-- The conversion `explicit operator bool() const`. -/
def process.operator_bool (self : process) : Bool :=
  self.pi_.hProcess != nullptr

/-- The private member `cleanup()`. -/
def process.cleanup (os : Os) (self : process) (t : Trace) : Ret Unit :=
  if self.pi_.hProcess = nullptr then
    ⟨(), self, t⟩
  else
    let ms := toDWORD self.terminate_timeout_
    let r := os.WaitForSingleObject t self.pi_.hProcess ms
    let t1 := t ++ [OsCall.WaitForSingleObject self.pi_.hProcess ms]
    let t2 := if r = WAIT_TIMEOUT then
        t1 ++ [OsCall.TerminateProcess self.pi_.hProcess (toDWORD (-1))]
      else t1
    let t3 := t2 ++ [OsCall.CloseHandle self.pi_.hProcess]
    let t4 := t3 ++ [OsCall.CloseHandle self.pi_.hThread]
    ⟨(), self, t4⟩

/-- The destructor `~process()`; the object no longer exists afterwards, only the trace
remains. -/
def process.destructor (os : Os) (self : process) (t : Trace) : Trace :=
  (process.cleanup os self t).trace

/-- The move constructor `process(process&& other)`: returns the new object and `other`
afterwards.  It issues no OS call. -/
def process.move_ctor (other : process) : process × process :=
  let self : process := { terminate_timeout_ := other.terminate_timeout_, pi_ := other.pi_ }
  let other1 : process := { other with pi_ := { other.pi_ with hProcess := nullptr } }
  (self, other1)

/-- The move assignment `operator=(process&& other)` for an `other` that is another
object than `*this`: returns `*this` and `other` afterwards, and the trace. -/
def process.operator_assign (os : Os) (self other : process) (t : Trace) :
    process × process × Trace :=
  let c := process.cleanup os self t
  let self1 : process := { c.self with pi_ := other.pi_ }
  let other1 : process := { other with pi_ := { other.pi_ with hProcess := nullptr } }
  let self2 : process := { self1 with terminate_timeout_ := other1.terminate_timeout_ }
  (self2, other1, c.trace)

/-- The member `done() const`. -/
def process.done (os : Os) (self : process) (t : Trace) : Ret Bool :=
  if self.pi_.hProcess = nullptr then
    ⟨false, self, t⟩
  else
    ⟨os.WaitForSingleObject t self.pi_.hProcess 0 != WAIT_TIMEOUT, self,
      t ++ [OsCall.WaitForSingleObject self.pi_.hProcess 0]⟩

/-- The member `wait()`. -/
def process.wait (_os : Os) (self : process) (t : Trace) : Ret Unit :=
  if self.pi_.hProcess = nullptr then
    ⟨(), self, t⟩
  else
    ⟨(), self, t ++ [OsCall.WaitForSingleObject self.pi_.hProcess INFINITE]⟩

/-- The member template `wait_for(timeout)`.  The duration type `D` and the standard
library's `duration_cast<milliseconds>(·).count()` on it are parameters. -/
def process.wait_for {D : Type} (duration_cast_ms : D → Int) (os : Os) (self : process)
    (timeout : D) (t : Trace) : Ret process_status :=
  if self.pi_.hProcess = nullptr then
    ⟨process_status.deffered, self, t⟩
  else
    let ms := duration_cast_ms timeout
    if os.WaitForSingleObject t self.pi_.hProcess (toDWORD ms) = WAIT_TIMEOUT then
      ⟨process_status.running, self,
        t ++ [OsCall.WaitForSingleObject self.pi_.hProcess (toDWORD ms)]⟩
    else
      ⟨process_status.done, self,
        t ++ [OsCall.WaitForSingleObject self.pi_.hProcess (toDWORD ms)]⟩

/-- The member `exit_code() const`.  `uninit` is the indeterminate content of the local
`DWORD exit_code` before the OS writes to it. -/
def process.exit_code (os : Os) (uninit : DWORD) (self : process) (t : Trace) :
    Ret (Option DWORD) :=
  let result : Option DWORD := none
  if self.pi_.hProcess = nullptr then
    ⟨result, self, t⟩
  else
    let exit_code := (os.GetExitCodeProcess t self.pi_.hProcess uninit).2
    ⟨some exit_code, self, t ++ [OsCall.GetExitCodeProcess self.pi_.hProcess]⟩

/-- The creation flags `spawn` computes: `create_new_console` or-ed with the bit the
`switch` over the priority selects. -/
def process.spawn.creation_flags (p : priority) : DWORD :=
  let create_new_console : DWORD := 0x00000010
  let creation_flags : DWORD := create_new_console
  if p = priority.low then creation_flags ||| 0x00000040
  else if p = priority.high then creation_flags ||| 0x00000080
  else creation_flags ||| 0x00000020

/-- The working directory `spawn` passes: a null pointer for an empty string. -/
def process.spawn.work_dir (directory : String) : Option String :=
  if directory.isEmpty then none else some directory

/-- The static member `spawn(command, priority, directory, terminate_timeout)`.
`uninit` is the indeterminate content of the local `result` before its constructor runs.
Both `return std::move(result)` statements move-construct the returned object from the
local, whose destructor then runs. -/
def process.spawn (os : Os) (uninit : process) (t : Trace) (command : String)
    (p : priority) (directory : String) (terminate_timeout : Int) : process × Trace :=
  let result := process.ctor uninit
  let result : process := { result with terminate_timeout_ := terminate_timeout }
  let creation_flags := process.spawn.creation_flags p
  let work_dir := process.spawn.work_dir directory
  let created := os.CreateProcessA t command creation_flags work_dir result.pi_
  let result : process := { result with pi_ := created.2 }
  let t1 := t ++ [OsCall.CreateProcessA command creation_flags work_dir]
  if !created.1 then
    let moved := process.move_ctor result
    (moved.1, process.destructor os moved.2 t1)
  else
    let moved := process.move_ctor result
    (moved.1, process.destructor os moved.2 t1)

/-- The default argument of `spawn` for `priority`. -/
def process.spawn.default_priority : priority := priority.normal

/-- The default argument of `spawn` for `directory`. -/
def process.spawn.default_directory : String := ""

/-- The default argument of `spawn` for `terminate_timeout`, in milliseconds. -/
def process.spawn.default_terminate_timeout : Int := 3000

/-- What the OS answers to the `CreateProcessA` call of `spawn`: the `BOOL` and the record
`result.pi_` afterwards. -/
def process.spawn.created (os : Os) (uninit : process) (t : Trace) (command : String)
    (p : priority) (directory : String) : Bool × PROCESS_INFORMATION :=
  os.CreateProcessA t command (process.spawn.creation_flags p)
    (process.spawn.work_dir directory) (process.ctor uninit).pi_

/-! ## Observations on traces -/

/-- The reference an OS call is issued on; `CreateProcessA` is issued on none. -/
def OsCall.target : OsCall → Option HANDLE
  | OsCall.CreateProcessA _ _ _ => none
  | OsCall.WaitForSingleObject h _ => some h
  | OsCall.GetExitCodeProcess h => some h
  | OsCall.TerminateProcess h _ => some h
  | OsCall.CloseHandle h => some h

/-- The duration a call asks the OS to wait for, when the call is a wait. -/
def OsCall.wait_ms : OsCall → Option DWORD
  | OsCall.WaitForSingleObject _ ms => some ms
  | _ => none

/-- How many times a trace closes the reference `h`. -/
def closes (h : HANDLE) (tr : Trace) : Nat :=
  tr.count (OsCall.CloseHandle h)

/-- Whether `c` closes the reference that the call `d` is issued on. -/
def usesClosed (c d : OsCall) : Bool :=
  match c with
  | OsCall.CloseHandle h => d.target == some h
  | _ => false

/-- No call of the trace is issued on a reference that an earlier call closed. -/
def NoUseAfterClose (tr : Trace) : Prop :=
  tr.Pairwise (fun c d => usesClosed c d = false)

instance (tr : Trace) : Decidable (NoUseAfterClose tr) := by
  unfold NoUseAfterClose
  infer_instance

/-- The references a handle owns: both of its references when it is owning, none when
it is empty. -/
def process.owned (self : process) : List HANDLE :=
  if self.pi_.hProcess = nullptr then [] else [self.pi_.hProcess, self.pi_.hThread]

/-- The statement `a = std::move(b)` followed by the destruction of both objects, `a`
first when `a_first` holds and `b` first otherwise. -/
def move_then_destroy (os : Os) (a_first : Bool) (a b : process) (t : Trace) : Trace :=
  let r := process.operator_assign os a b t
  if a_first then
    process.destructor os r.2.1 (process.destructor os r.1 r.2.2)
  else
    process.destructor os r.1 (process.destructor os r.2.1 r.2.2)

/-! ## A concrete operating system for examples -/

/-- An operating system in which `CreateProcessA` fails for the empty command line and
otherwise yields the references `100` and `101`, every wait returns `status`, and the
exit status of every process reads `STILL_ACTIVE`. -/
def sampleOs (status : DWORD) : Os where
  CreateProcessA := fun _ command _ _ info =>
    if command.isEmpty then (false, info) else (true, ⟨100, 101, 7, 8⟩)
  WaitForSingleObject := fun _ _ _ => status
  GetExitCodeProcess := fun _ _ _ => (true, STILL_ACTIVE)

/-- An operating system whose polls fail: a wait of `0` ms returns `WAIT_FAILED`, every
longer wait returns `WAIT_TIMEOUT`; process creation and exit status as in `sampleOs`. -/
def sampleOsFailingPoll : Os where
  CreateProcessA := (sampleOs WAIT_TIMEOUT).CreateProcessA
  WaitForSingleObject := fun _ _ ms => if ms = 0 then WAIT_FAILED else WAIT_TIMEOUT
  GetExitCodeProcess := (sampleOs WAIT_TIMEOUT).GetExitCodeProcess

/-- An owning handle over the references `100` and `101` with a grace period of `ms`. -/
def sampleOwning (ms : Int) : process := ⟨⟨100, 101, 7, 8⟩, ms⟩

/-- Indeterminate storage used where an example needs some. -/
def sampleStorage : process := ⟨⟨41, 42, 43, 44⟩, 45⟩

/-! ## Theorems -/

/-- C1, as stated, fails: an owning handle whose grace period is `4294967301` ms is
released with a wait of `5` ms, and one whose grace period is `-7` ms with a wait of
`4294967289` ms; in both the wait's duration is not the handle's grace period. -/
theorem release_wait_duration_counterexample :
    (sampleOwning 4294967301).operator_bool = true
    ∧ (process.cleanup (sampleOs WAIT_TIMEOUT) (sampleOwning 4294967301) []).trace
        = [OsCall.WaitForSingleObject 100 5, OsCall.TerminateProcess 100 0xFFFFFFFF,
            OsCall.CloseHandle 100, OsCall.CloseHandle 101]
    ∧ ((5 : Nat) : Int) ≠ (sampleOwning 4294967301).terminate_timeout_
    ∧ (sampleOwning (-7)).operator_bool = true
    ∧ (process.cleanup (sampleOs WAIT_OBJECT_0) (sampleOwning (-7)) []).trace
        = [OsCall.WaitForSingleObject 100 4294967289, OsCall.CloseHandle 100,
            OsCall.CloseHandle 101]
    ∧ ((4294967289 : Nat) : Int) ≠ (sampleOwning (-7)).terminate_timeout_ := by
  decide

/-- C1 (amended, release protocol).  For an empty handle `cleanup` issues no OS call.  For
an owning handle with grace period `t`, whatever the wait returns, it issues exactly: one
wait on the process reference for `t mod 2 ^ 32` milliseconds, then a terminate of that
process with exit code `0xFFFFFFFF` exactly when the wait returned `WAIT_TIMEOUT`, then a
close of the process reference, then a close of the thread reference.  The duration
`t mod 2 ^ 32` is `t` itself whenever `0 ≤ t < 2 ^ 32`.  The destructor and the move
assignment (on its target) issue exactly these calls. -/
theorem cleanup_release_protocol (os : Os) (self other : process) (t : Trace) :
    (process.cleanup os self t).trace =
        (if self.operator_bool = true then
          t ++ [OsCall.WaitForSingleObject self.pi_.hProcess
                  (self.terminate_timeout_ % 4294967296).toNat]
            ++ (if os.WaitForSingleObject t self.pi_.hProcess
                    (self.terminate_timeout_ % 4294967296).toNat = WAIT_TIMEOUT
                then [OsCall.TerminateProcess self.pi_.hProcess 0xFFFFFFFF] else [])
            ++ [OsCall.CloseHandle self.pi_.hProcess, OsCall.CloseHandle self.pi_.hThread]
        else t)
      ∧ (0 ≤ self.terminate_timeout_ → self.terminate_timeout_ < 4294967296 →
          (((self.terminate_timeout_ % 4294967296).toNat : Nat) : Int)
            = self.terminate_timeout_)
      ∧ process.destructor os self t = (process.cleanup os self t).trace
      ∧ (process.operator_assign os self other t).2.2 = (process.cleanup os self t).trace := by
  refine ⟨?_, ?_, rfl, rfl⟩
  · have hm : toDWORD (-1) = 0xFFFFFFFF := by decide
    have hd : toDWORD self.terminate_timeout_
        = (self.terminate_timeout_ % 4294967296).toNat := by
      unfold toDWORD
      norm_num
    by_cases h : self.pi_.hProcess = nullptr
    · simp [process.cleanup, process.operator_bool, h]
    · by_cases hw : os.WaitForSingleObject t self.pi_.hProcess
          (self.terminate_timeout_ % 4294967296).toNat = WAIT_TIMEOUT
      · simp [process.cleanup, process.operator_bool, h, hd, hw, hm]
      · simp [process.cleanup, process.operator_bool, h, hd, hw]
  · intro h0 h1
    rw [Int.emod_eq_of_lt h0 h1]
    exact Int.toNat_of_nonneg h0

/-- C2 (ownership transfer).  When `b` is owning, after `a = std::move(b)` on another
object `a`, and likewise after move-constructing `a` from `b`, `a` is owning and holds
exactly the former process reference, thread reference and grace period of `b`, and `b`
is empty. -/
theorem move_transfers_ownership (os : Os) (a b : process) (t : Trace)
    (hb : b.operator_bool = true) :
    ((process.operator_assign os a b t).1.operator_bool = true
      ∧ (process.operator_assign os a b t).1.pi_.hProcess = b.pi_.hProcess
      ∧ (process.operator_assign os a b t).1.pi_.hThread = b.pi_.hThread
      ∧ (process.operator_assign os a b t).1.terminate_timeout_ = b.terminate_timeout_
      ∧ (process.operator_assign os a b t).2.1.operator_bool = false)
    ∧ ((process.move_ctor b).1.operator_bool = true
      ∧ (process.move_ctor b).1.pi_.hProcess = b.pi_.hProcess
      ∧ (process.move_ctor b).1.pi_.hThread = b.pi_.hThread
      ∧ (process.move_ctor b).1.terminate_timeout_ = b.terminate_timeout_
      ∧ (process.move_ctor b).2.operator_bool = false) := by
  have hb1 : (b.pi_.hProcess != nullptr) = true := hb
  refine ⟨⟨hb1, rfl, rfl, rfl, ?_⟩, hb1, rfl, rfl, rfl, ?_⟩
  · simp [process.operator_assign, process.operator_bool]
  · simp [process.move_ctor, process.operator_bool]

/-- Witness of C2: an owning handle moved into an owning and into a fresh handle. -/
theorem move_transfers_ownership_witness :
    (sampleOwning 3000).operator_bool = true
    ∧ (process.operator_assign (sampleOs WAIT_TIMEOUT) ⟨⟨200, 201, 9, 10⟩, 50⟩
          (sampleOwning 3000) []).1.pi_.hProcess = 100
    ∧ (process.operator_assign (sampleOs WAIT_TIMEOUT) ⟨⟨200, 201, 9, 10⟩, 50⟩
          (sampleOwning 3000) []).2.1.operator_bool = false := by
  have h := move_transfers_ownership (sampleOs WAIT_TIMEOUT) ⟨⟨200, 201, 9, 10⟩, 50⟩
    (sampleOwning 3000) [] (by decide)
  exact ⟨by decide, h.1.2.1, h.1.2.2.2.2⟩

/-- C4 (three states of `wait_for`).  For every timeout: on an empty handle `wait_for`
returns `deffered` and issues no OS call; on an owning handle it issues one wait on the
process reference, returns `running` when that wait returns `WAIT_TIMEOUT`, returns
`done` when it returns `WAIT_OBJECT_0`, and never returns `deffered`. -/
theorem wait_for_three_states {D : Type} (duration_cast_ms : D → Int) (os : Os)
    (self : process) (timeout : D) (t : Trace) :
    (self.operator_bool = false →
        (process.wait_for duration_cast_ms os self timeout t).value = process_status.deffered
        ∧ (process.wait_for duration_cast_ms os self timeout t).trace = t)
    ∧ (self.operator_bool = true →
        (process.wait_for duration_cast_ms os self timeout t).trace =
            t ++ [OsCall.WaitForSingleObject self.pi_.hProcess
                    (toDWORD (duration_cast_ms timeout))]
        ∧ (os.WaitForSingleObject t self.pi_.hProcess (toDWORD (duration_cast_ms timeout))
              = WAIT_TIMEOUT →
            (process.wait_for duration_cast_ms os self timeout t).value
              = process_status.running)
        ∧ (os.WaitForSingleObject t self.pi_.hProcess (toDWORD (duration_cast_ms timeout))
              = WAIT_OBJECT_0 →
            (process.wait_for duration_cast_ms os self timeout t).value
              = process_status.done)
        ∧ (process.wait_for duration_cast_ms os self timeout t).value
              ≠ process_status.deffered) := by
  by_cases h : self.pi_.hProcess = nullptr
  · simp [process.wait_for, process.operator_bool, h]
  · by_cases hw : os.WaitForSingleObject t self.pi_.hProcess
        (toDWORD (duration_cast_ms timeout)) = WAIT_TIMEOUT
    · simp [process.wait_for, process.operator_bool, h, hw, WAIT_TIMEOUT, WAIT_OBJECT_0]
    · simp [process.wait_for, process.operator_bool, h, hw]

/-- C6 (queries on an empty handle).  On an empty handle the validity check is false,
`done()` returns false, `wait()` returns, `wait_for` returns `deffered` for every
timeout and `exit_code()` returns nothing; none of them issues an OS call and each
leaves the handle as it was, hence empty. -/
theorem empty_handle_queries_neutral {D : Type} (duration_cast_ms : D → Int) (os : Os)
    (self : process) (timeout : D) (uninit : DWORD) (t : Trace)
    (hempty : self.pi_.hProcess = nullptr) :
    self.operator_bool = false
    ∧ ((process.done os self t).value = false
        ∧ (process.done os self t).trace = t
        ∧ (process.done os self t).self = self)
    ∧ ((process.wait os self t).trace = t
        ∧ (process.wait os self t).self = self)
    ∧ ((process.wait_for duration_cast_ms os self timeout t).value = process_status.deffered
        ∧ (process.wait_for duration_cast_ms os self timeout t).trace = t
        ∧ (process.wait_for duration_cast_ms os self timeout t).self = self)
    ∧ ((process.exit_code os uninit self t).value = none
        ∧ (process.exit_code os uninit self t).trace = t
        ∧ (process.exit_code os uninit self t).self = self) := by
  simp [process.operator_bool, process.done, process.wait, process.wait_for,
    process.exit_code, hempty]

/-- Witness of C6: a default-constructed handle. -/
theorem empty_handle_queries_neutral_witness :
    (process.ctor sampleStorage).pi_.hProcess = nullptr
    ∧ (process.wait_for id (sampleOs WAIT_OBJECT_0) (process.ctor sampleStorage) 250
        []).value = process_status.deffered
    ∧ (process.exit_code (sampleOs WAIT_OBJECT_0) 77 (process.ctor sampleStorage)
        []).value = none :=
  ⟨rfl,
    (empty_handle_queries_neutral id (sampleOs WAIT_OBJECT_0) (process.ctor sampleStorage)
      250 77 [] rfl).2.2.2.1.1,
    (empty_handle_queries_neutral id (sampleOs WAIT_OBJECT_0) (process.ctor sampleStorage)
      250 77 [] rfl).2.2.2.2.1⟩

/-- C10 (`exit_code`).  `exit_code()` returns nothing exactly when the handle is empty.
On an owning handle it issues the exit-status query alone, with no wait before it, and
returns what the query wrote, so the value `STILL_ACTIVE` of a running process comes
back as if it were an exit code.  The handle is left unchanged. -/
theorem exit_code_absent_iff_empty (os : Os) (uninit : DWORD) (self : process)
    (t : Trace) :
    ((process.exit_code os uninit self t).value = none ↔ self.operator_bool = false)
    ∧ (self.operator_bool = true →
        (process.exit_code os uninit self t).value
            = some (os.GetExitCodeProcess t self.pi_.hProcess uninit).2
        ∧ (process.exit_code os uninit self t).trace
            = t ++ [OsCall.GetExitCodeProcess self.pi_.hProcess]
        ∧ ((os.GetExitCodeProcess t self.pi_.hProcess uninit).2 = STILL_ACTIVE →
            (process.exit_code os uninit self t).value = some STILL_ACTIVE))
    ∧ (process.exit_code os uninit self t).self = self
    ∧ (process.exit_code os uninit self t).self.pi_.hProcess = self.pi_.hProcess
    ∧ (process.exit_code os uninit self t).self.pi_.hThread = self.pi_.hThread
    ∧ (process.exit_code os uninit self t).self.terminate_timeout_
        = self.terminate_timeout_ := by
  by_cases h : self.pi_.hProcess = nullptr
  · simp [process.exit_code, process.operator_bool, h]
  · simp [process.exit_code, process.operator_bool, h]

/-- C5 (result of `spawn`).  Assume that a successful `CreateProcessA` writes a non-null
process reference and that a failed one leaves the record untouched.  Then the handle
`spawn` returns is owning exactly when the call succeeded; on success it holds the record
the OS wrote, on failure it is empty; its grace period is the `terminate_timeout`
argument, `3000` with the default arguments; and the creation call is the only OS call
`spawn` issues. -/
theorem spawn_owning_iff_created (os : Os) (uninit : process) (t : Trace)
    (command : String) (p : priority) (directory : String) (terminate_timeout : Int)
    (hsucc : ∀ tr cmd fl wd info, (os.CreateProcessA tr cmd fl wd info).1 = true →
      (os.CreateProcessA tr cmd fl wd info).2.hProcess ≠ nullptr)
    (hfail : ∀ tr cmd fl wd info, (os.CreateProcessA tr cmd fl wd info).1 = false →
      (os.CreateProcessA tr cmd fl wd info).2 = info) :
    ((process.spawn os uninit t command p directory terminate_timeout).1.operator_bool = true
        ↔ (process.spawn.created os uninit t command p directory).1 = true)
    ∧ ((process.spawn.created os uninit t command p directory).1 = true →
        (process.spawn os uninit t command p directory terminate_timeout).1.pi_
          = (process.spawn.created os uninit t command p directory).2)
    ∧ ((process.spawn.created os uninit t command p directory).1 = false →
        (process.spawn os uninit t command p directory terminate_timeout).1.operator_bool
          = false)
    ∧ (process.spawn os uninit t command p directory terminate_timeout).1.terminate_timeout_
        = terminate_timeout
    ∧ (process.spawn os uninit t command process.spawn.default_priority
        process.spawn.default_directory
        process.spawn.default_terminate_timeout).1.terminate_timeout_ = 3000
    ∧ (process.spawn os uninit t command p directory terminate_timeout).2
        = t ++ [OsCall.CreateProcessA command (process.spawn.creation_flags p)
                  (process.spawn.work_dir directory)] := by
  have hs := hsucc t command (process.spawn.creation_flags p)
    (process.spawn.work_dir directory) (process.ctor uninit).pi_
  have hf := hfail t command (process.spawn.creation_flags p)
    (process.spawn.work_dir directory) (process.ctor uninit).pi_
  have hnull : (process.ctor uninit).pi_.hProcess = nullptr := rfl
  have hret : (process.spawn os uninit t command p directory terminate_timeout).1.pi_
      = (process.spawn.created os uninit t command p directory).2 := by
    simp [process.spawn, process.spawn.created, process.move_ctor, process.ctor]
  have htrace : (process.spawn os uninit t command p directory terminate_timeout).2
      = t ++ [OsCall.CreateProcessA command (process.spawn.creation_flags p)
                (process.spawn.work_dir directory)] := by
    simp [process.spawn, process.move_ctor, process.destructor, process.cleanup]
  have htime : ∀ q dir ms, (process.spawn os uninit t command q dir ms).1.terminate_timeout_
      = ms := by
    intro q dir ms
    simp [process.spawn, process.move_ctor, process.ctor]
  refine ⟨?_, fun _ => hret, ?_, htime _ _ _, htime _ _ _, htrace⟩
  · cases hc : (process.spawn.created os uninit t command p directory).1
    · have h2 := hf hc
      simp only [process.operator_bool, hret]
      simp [process.spawn.created, h2, hnull]
    · have h2 := hs hc
      simp only [process.operator_bool, hret]
      simpa [process.spawn.created] using h2
  · intro hc
    have h2 := hf hc
    simp only [process.operator_bool, hret]
    simp [process.spawn.created, h2, hnull]

/-- Witness of C5: the sample OS meets both assumptions; the command `"helper.exe"`
yields an owning handle over the reference `100`. -/
theorem spawn_owning_iff_created_witness :
    (process.spawn (sampleOs WAIT_OBJECT_0) sampleStorage [] "helper.exe" priority.high
        "" 1500).1.pi_ = ⟨100, 101, 7, 8⟩
    ∧ (process.spawn (sampleOs WAIT_OBJECT_0) sampleStorage [] "helper.exe" priority.high
        "" 1500).1.terminate_timeout_ = 1500
    ∧ (process.spawn (sampleOs WAIT_OBJECT_0) sampleStorage [] "helper.exe" priority.high
        "" 1500).2 = [OsCall.CreateProcessA "helper.exe" 0x90 none] := by
  have h := spawn_owning_iff_created (sampleOs WAIT_OBJECT_0) sampleStorage []
    "helper.exe" priority.high "" 1500
    (by
      intro tr cmd fl wd info
      by_cases hc : cmd.isEmpty = true <;> simp [sampleOs, hc, nullptr])
    (by
      intro tr cmd fl wd info
      by_cases hc : cmd.isEmpty = true <;> simp [sampleOs, hc])
  exact ⟨h.2.1 (by decide), h.2.2.2.1, h.2.2.2.2.2⟩

/-- C7, as stated, fails: on an owning handle whose wait returns `WAIT_FAILED` (neither
`WAIT_OBJECT_0` nor `WAIT_TIMEOUT`), `done()` returns true and `wait_for` returns
`done`. -/
theorem wait_failure_counterexample :
    (sampleOwning 3000).operator_bool = true
    ∧ WAIT_FAILED ≠ WAIT_OBJECT_0
    ∧ WAIT_FAILED ≠ WAIT_TIMEOUT
    ∧ (sampleOs WAIT_FAILED).WaitForSingleObject [] 100 0 = WAIT_FAILED
    ∧ (process.done (sampleOs WAIT_FAILED) (sampleOwning 3000) []).value = true
    ∧ (sampleOs WAIT_FAILED).WaitForSingleObject [] 100 (toDWORD 250) = WAIT_FAILED
    ∧ (process.wait_for id (sampleOs WAIT_FAILED) (sampleOwning 3000) 250 []).value
        = process_status.done := by
  decide

/-- C7 (amended).  On an owning handle, when the OS wait a query issues returns a failure
result, that is neither `WAIT_OBJECT_0` nor `WAIT_TIMEOUT`, the query reports a finished
process: `done()` returns true when its wait of `0` ms fails, and `wait_for` returns
`done` when its wait of the given timeout fails. -/
theorem wait_failure_treated_as_done {D : Type} (duration_cast_ms : D → Int) (os : Os)
    (self : process) (timeout : D) (t : Trace)
    (hown : self.operator_bool = true) :
    (os.WaitForSingleObject t self.pi_.hProcess 0 ≠ WAIT_OBJECT_0 →
      os.WaitForSingleObject t self.pi_.hProcess 0 ≠ WAIT_TIMEOUT →
        (process.done os self t).value = true)
    ∧ (os.WaitForSingleObject t self.pi_.hProcess (toDWORD (duration_cast_ms timeout))
          ≠ WAIT_OBJECT_0 →
      os.WaitForSingleObject t self.pi_.hProcess (toDWORD (duration_cast_ms timeout))
          ≠ WAIT_TIMEOUT →
        (process.wait_for duration_cast_ms os self timeout t).value
          = process_status.done) := by
  have hp : self.pi_.hProcess ≠ nullptr := by
    simpa [process.operator_bool] using hown
  constructor
  · intro _ hto
    simp [process.done, hp, hto]
  · intro _ hto
    simp [process.wait_for, hp, hto]

/-- Witness of C7 (amended): `done()` on an OS where only the poll of `0` ms fails, and
`wait_for` on an OS where every wait fails. -/
theorem wait_failure_treated_as_done_witness :
    (process.done sampleOsFailingPoll (sampleOwning 3000) []).value = true
    ∧ (process.wait_for id (sampleOs WAIT_FAILED) (sampleOwning 3000) 250 []).value
        = process_status.done :=
  ⟨(wait_failure_treated_as_done id sampleOsFailingPoll (sampleOwning 3000) 250 []
      (by decide)).1 (by decide) (by decide),
    (wait_failure_treated_as_done id (sampleOs WAIT_FAILED) (sampleOwning 3000) 250 []
      (by decide)).2 (by decide) (by decide)⟩

/-- C8, as stated, fails: a handle spawned with a grace period of `-1` ms is released
with a wait of `INFINITE`, and one spawned with `4294967296` ms with a wait of `0` ms. -/
theorem grace_wait_counterexample :
    (process.spawn (sampleOs WAIT_OBJECT_0) sampleStorage [] "helper.exe" priority.normal
        "" (-1)).1 = sampleOwning (-1)
    ∧ process.destructor (sampleOs WAIT_OBJECT_0) (sampleOwning (-1)) []
        = [OsCall.WaitForSingleObject 100 INFINITE, OsCall.CloseHandle 100,
            OsCall.CloseHandle 101]
    ∧ (process.spawn (sampleOs WAIT_OBJECT_0) sampleStorage [] "helper.exe" priority.normal
        "" 4294967296).1 = sampleOwning 4294967296
    ∧ process.destructor (sampleOs WAIT_OBJECT_0) (sampleOwning 4294967296) []
        = [OsCall.WaitForSingleObject 100 0, OsCall.CloseHandle 100,
            OsCall.CloseHandle 101] := by
  decide

/-- C8 (amended).  For every owning handle whose grace period `t` satisfies
`0 ≤ t < 0xFFFFFFFF`, the release protocol issues exactly one wait, and it asks for
exactly `t` milliseconds, which is not `INFINITE`. -/
theorem grace_wait_exact_in_range (os : Os) (self : process) (t : Trace)
    (hown : self.operator_bool = true)
    (h0 : 0 ≤ self.terminate_timeout_) (h1 : self.terminate_timeout_ < 0xFFFFFFFF) :
    (((process.cleanup os self t).trace.drop t.length).filterMap OsCall.wait_ms
        = [self.terminate_timeout_.toNat])
    ∧ (self.terminate_timeout_.toNat : Int) = self.terminate_timeout_
    ∧ self.terminate_timeout_.toNat ≠ INFINITE := by
  have hp : self.pi_.hProcess ≠ nullptr := by
    simpa [process.operator_bool] using hown
  have hms : toDWORD self.terminate_timeout_ = self.terminate_timeout_.toNat := by
    unfold toDWORD
    rw [Int.emod_eq_of_lt h0 (by omega)]
  refine ⟨?_, Int.toNat_of_nonneg h0, ?_⟩
  · by_cases hw : os.WaitForSingleObject t self.pi_.hProcess
        self.terminate_timeout_.toNat = WAIT_TIMEOUT
    · simp [process.cleanup, hp, hms, hw, OsCall.wait_ms]
    · simp [process.cleanup, hp, hms, hw, OsCall.wait_ms]
  · unfold INFINITE
    omega

/-- Witness of C8 (amended): a grace period of `3000` ms. -/
theorem grace_wait_exact_in_range_witness :
    ((process.cleanup (sampleOs WAIT_TIMEOUT) (sampleOwning 3000) []).trace.drop 0).filterMap
        OsCall.wait_ms = [3000] :=
  (grace_wait_exact_in_range (sampleOs WAIT_TIMEOUT) (sampleOwning 3000) []
    (by decide) (by decide) (by decide)).1

/-- C9 (creation flags and working directory).  The one `CreateProcessA` call of `spawn`
receives the new-console bit `0x10` or-ed with one priority-class bit: `0x40` for
`priority::low`, `0x80` for `priority::high`, `0x20` for `priority::normal` and every
other value.  The new-console bit is always set, and the working directory is a null
pointer exactly when the directory string is empty. -/
theorem spawn_creation_flags_mapping (os : Os) (uninit : process) (t : Trace)
    (command : String) (p : priority) (directory : String) (terminate_timeout : Int) :
    (process.spawn os uninit t command p directory terminate_timeout).2
        = t ++ [OsCall.CreateProcessA command
                  (0x10 ||| (if p = priority.low then 0x40
                    else if p = priority.high then 0x80 else 0x20))
                  (if directory = "" then none else some directory)]
    ∧ process.spawn.creation_flags priority.low = 0x10 ||| 0x40
    ∧ process.spawn.creation_flags priority.high = 0x10 ||| 0x80
    ∧ process.spawn.creation_flags priority.normal = 0x10 ||| 0x20
    ∧ (p ≠ priority.low → p ≠ priority.high →
        process.spawn.creation_flags p = 0x10 ||| 0x20)
    ∧ process.spawn.creation_flags p &&& 0x10 = 0x10
    ∧ (process.spawn.creation_flags p &&& 0xE0 = 0x40
        ∨ process.spawn.creation_flags p &&& 0xE0 = 0x80
        ∨ process.spawn.creation_flags p &&& 0xE0 = 0x20)
    ∧ (process.spawn.work_dir directory = none ↔ directory = "") := by
  have hdir : process.spawn.work_dir directory
      = if directory = "" then none else some directory := by
    unfold process.spawn.work_dir
    by_cases hd : directory = ""
    · simp [hd, String.isEmpty_iff]
    · simp [hd, String.isEmpty_iff]
  have hcases : (p = priority.low ∧ process.spawn.creation_flags p = 0x50)
      ∨ (p = priority.high ∧ process.spawn.creation_flags p = 0x90)
      ∨ (p ≠ priority.low ∧ p ≠ priority.high ∧ process.spawn.creation_flags p = 0x30) := by
    by_cases hl : p = priority.low
    · exact Or.inl ⟨hl, by subst hl; decide⟩
    · by_cases hh : p = priority.high
      · exact Or.inr (Or.inl ⟨hh, by subst hh; decide⟩)
      · refine Or.inr (Or.inr ⟨hl, hh, ?_⟩)
        unfold process.spawn.creation_flags
        simp only [hl, hh, if_false]
        decide
  have hflags : process.spawn.creation_flags p
      = 0x10 ||| (if p = priority.low then 0x40
          else if p = priority.high then 0x80 else 0x20) := by
    rcases hcases with ⟨hl, hv⟩ | ⟨hh, hv⟩ | ⟨hl, hh, hv⟩
    · rw [hv]; subst hl; decide
    · rw [hv]; subst hh; decide
    · rw [hv]; simp only [hl, hh, if_false]; decide
  refine ⟨?_, by decide, by decide, by decide, ?_, ?_, ?_, ?_⟩
  · rw [← hdir, ← hflags]
    simp [process.spawn, process.move_ctor, process.destructor, process.cleanup]
  · intro hl hh
    rcases hcases with ⟨hl1, _⟩ | ⟨hh1, _⟩ | ⟨_, _, hv⟩
    · exact absurd hl1 hl
    · exact absurd hh1 hh
    · rw [hv]; decide
  · rcases hcases with ⟨_, hv⟩ | ⟨_, hv⟩ | ⟨_, _, hv⟩ <;> rw [hv] <;> decide
  · rcases hcases with ⟨_, hv⟩ | ⟨_, hv⟩ | ⟨_, _, hv⟩ <;> rw [hv] <;> decide
  · rw [hdir]
    by_cases hd : directory = "" <;> simp [hd]

/-- The calls `cleanup` appends to the trace: none for an empty handle; for an owning one
a wait, possibly a terminate, and the two closes. -/
theorem cleanup_appends (os : Os) (self : process) (t : Trace) :
    ∃ calls, (process.cleanup os self t).trace = t ++ calls
      ∧ (self.pi_.hProcess = nullptr → calls = [])
      ∧ (self.pi_.hProcess ≠ nullptr →
          calls = [OsCall.WaitForSingleObject self.pi_.hProcess
                    (toDWORD self.terminate_timeout_),
                  OsCall.CloseHandle self.pi_.hProcess, OsCall.CloseHandle self.pi_.hThread]
          ∨ calls = [OsCall.WaitForSingleObject self.pi_.hProcess
                    (toDWORD self.terminate_timeout_),
                  OsCall.TerminateProcess self.pi_.hProcess (toDWORD (-1)),
                  OsCall.CloseHandle self.pi_.hProcess,
                  OsCall.CloseHandle self.pi_.hThread]) := by
  by_cases h : self.pi_.hProcess = nullptr
  · exact ⟨[], by simp [process.cleanup, h], fun _ => rfl, fun hn => absurd h hn⟩
  · by_cases hw : os.WaitForSingleObject t self.pi_.hProcess
        (toDWORD self.terminate_timeout_) = WAIT_TIMEOUT
    · exact ⟨_, by simp [process.cleanup, h, hw], fun hn => absurd hn h,
        fun _ => Or.inr rfl⟩
    · exact ⟨_, by simp [process.cleanup, h, hw], fun hn => absurd hn h,
        fun _ => Or.inl rfl⟩

/-- After `a = std::move(b)` the destruction of both objects, in either order, issues
the calls of releasing the former `a` followed by those of releasing the former `b`. -/
theorem move_then_destroy_eq (os : Os) (a_first : Bool) (a b : process) (t : Trace) :
    move_then_destroy os a_first a b t
      = (process.cleanup os b (process.cleanup os a t).trace).trace := by
  have hb : ∀ t1, (process.cleanup os
      { b with pi_ := { b.pi_ with hProcess := nullptr } } t1).trace = t1 := by
    intro t1
    simp [process.cleanup]
  cases a_first <;>
    simp [move_then_destroy, process.operator_assign, process.destructor, hb]

/-- C3 (no double release).  Let `a` and `b` be two handles, each empty or owning, whose
owned references are pairwise distinct.  After `a = std::move(b)` and the destruction of
both, in either order, every reference `a` or `b` owned at the start has been closed
exactly once, no call is issued on a reference after its close, and destroying the
moved-from `b` issues no OS call. -/
theorem move_then_destroy_closes_once (os : Os) (a_first : Bool) (a b : process)
    (t : Trace) (hdistinct : (a.owned ++ b.owned).Nodup) :
    (∀ h ∈ a.owned ++ b.owned,
        closes h ((move_then_destroy os a_first a b t).drop t.length) = 1)
    ∧ NoUseAfterClose ((move_then_destroy os a_first a b t).drop t.length)
    ∧ move_then_destroy os a_first a b t
        = t ++ (move_then_destroy os a_first a b t).drop t.length
    ∧ (∀ t1, process.destructor os (process.operator_assign os a b t).2.1 t1 = t1) := by
  obtain ⟨ca, hca, ha0, ha1⟩ := cleanup_appends os a t
  obtain ⟨cb, hcb, hb0, hb1⟩ := cleanup_appends os b (t ++ ca)
  have htr : move_then_destroy os a_first a b t = t ++ (ca ++ cb) := by
    rw [move_then_destroy_eq, hca, hcb, List.append_assoc]
  have hdrop : (move_then_destroy os a_first a b t).drop t.length = ca ++ cb := by
    rw [htr, List.drop_left]
  rw [hdrop]
  refine ⟨?_, ?_, htr, ?_⟩
  · by_cases ha : a.pi_.hProcess = nullptr <;> by_cases hb : b.pi_.hProcess = nullptr
    · simp [process.owned, ha, hb]
    · have hd := hdistinct
      simp only [process.owned, ha, hb, if_true, if_false] at hd ⊢
      simp at hd
      rcases hb1 hb with h | h <;>
        simp [ha0 ha, h, closes, hd, Ne.symm hd]
    · have hd := hdistinct
      simp only [process.owned, ha, hb, if_true, if_false] at hd ⊢
      simp at hd
      rcases ha1 ha with h | h <;>
        simp [hb0 hb, h, closes, hd, Ne.symm hd]
    · have hd := hdistinct
      simp only [process.owned, ha, hb, if_true, if_false] at hd ⊢
      simp at hd
      obtain ⟨⟨h1, h2, h3⟩, ⟨h4, h5⟩, h6⟩ := hd
      rcases ha1 ha with h | h <;> rcases hb1 hb with h' | h' <;>
        simp [h, h', closes, h1, h2, h3, h4, h5, h6, Ne.symm h1, Ne.symm h2, Ne.symm h3,
          Ne.symm h4, Ne.symm h5, Ne.symm h6]
  · by_cases ha : a.pi_.hProcess = nullptr <;> by_cases hb : b.pi_.hProcess = nullptr
    · simp [ha0 ha, hb0 hb, NoUseAfterClose]
    · have hd := hdistinct
      simp only [process.owned, ha, hb, if_true, if_false] at hd
      simp at hd
      rcases hb1 hb with h | h <;>
        simp [ha0 ha, h, NoUseAfterClose, usesClosed, OsCall.target, hd, Ne.symm hd]
    · have hd := hdistinct
      simp only [process.owned, ha, hb, if_true, if_false] at hd
      simp at hd
      rcases ha1 ha with h | h <;>
        simp [hb0 hb, h, NoUseAfterClose, usesClosed, OsCall.target, hd, Ne.symm hd]
    · have hd := hdistinct
      simp only [process.owned, ha, hb, if_true, if_false] at hd
      simp at hd
      obtain ⟨⟨h1, h2, h3⟩, ⟨h4, h5⟩, h6⟩ := hd
      rcases ha1 ha with h | h <;> rcases hb1 hb with h' | h' <;>
        simp [h, h', NoUseAfterClose, usesClosed, OsCall.target, h1, h2, h3, h4, h5, h6,
          Ne.symm h1, Ne.symm h2, Ne.symm h3, Ne.symm h4, Ne.symm h5, Ne.symm h6]
  · intro t1
    simp [process.destructor, process.cleanup, process.operator_assign]

/-- Witness of C3: two owning handles over the references `200`, `201` and `100`, `101`,
with every wait timing out; the eight calls issued close each reference once. -/
theorem move_then_destroy_closes_once_witness :
    ((process.owned ⟨⟨200, 201, 9, 10⟩, 50⟩) ++ (sampleOwning 3000).owned).Nodup
    ∧ move_then_destroy (sampleOs WAIT_TIMEOUT) true ⟨⟨200, 201, 9, 10⟩, 50⟩
        (sampleOwning 3000) []
        = [OsCall.WaitForSingleObject 200 50, OsCall.TerminateProcess 200 0xFFFFFFFF,
            OsCall.CloseHandle 200, OsCall.CloseHandle 201,
            OsCall.WaitForSingleObject 100 3000, OsCall.TerminateProcess 100 0xFFFFFFFF,
            OsCall.CloseHandle 100, OsCall.CloseHandle 101]
    ∧ closes 101 ((move_then_destroy (sampleOs WAIT_TIMEOUT) true ⟨⟨200, 201, 9, 10⟩, 50⟩
        (sampleOwning 3000) []).drop 0) = 1
    ∧ NoUseAfterClose ((move_then_destroy (sampleOs WAIT_TIMEOUT) true
        ⟨⟨200, 201, 9, 10⟩, 50⟩ (sampleOwning 3000) []).drop 0) :=
  ⟨by decide, by decide,
    (move_then_destroy_closes_once (sampleOs WAIT_TIMEOUT) true ⟨⟨200, 201, 9, 10⟩, 50⟩
      (sampleOwning 3000) [] (by decide)).1 101 (by decide),
    (move_then_destroy_closes_once (sampleOs WAIT_TIMEOUT) true ⟨⟨200, 201, 9, 10⟩, 50⟩
      (sampleOwning 3000) [] (by decide)).2.1⟩

end pspawn
